import Mathlib

/-!
# Event viewer controller: startup sequence and forwarding pipeline

A shallow embedding of `utils/config.go` (`Config`, `LoadConfig`) and of
`cmd/main.go` (`main`).  Library calls (viper, zap, controller-runtime,
encoding/json, promtail) are collaborators whose results are supplied by a
`World`; every call `main` makes is recorded, with its arguments, in a trace.
For `json.Unmarshal` the file also holds the decoder of the Go library itself
(`jsonUnmarshal`), so that the strings it rejects are determined.

The reconciler that `main` registers (`internal/controller`) and the delivery
path of the forwarding client are not among the sources; the dedup guard, the
label enricher, the retry delay, `Deliver` and `Reconcile` are written from
sections 3 and 4 of the specification, and each such definition says so.
-/

namespace EventViewer

/-! ## Data model -/

/-- Go `error` values, identified by their message. -/
abbrev Error := String

/-- Go `map[string]string`: an association list read with `List.lookup`. -/
abbrev Labels := List (String × String)

/-- Struct `Config` of `utils/config.go`. -/
structure Config where
  EnableLeaderElection : Bool
  MetricsAddr : String
  ProbeAddr : String
  LokiGatewayUrl : String
  LogLevel : String
  LokiLabels : String
deriving DecidableEq, Repr

/-- The zero value of `Config`, which is what the named result `config` of
`LoadConfig` holds until `viper.Unmarshal` writes to it. -/
def Config.zero : Config :=
  { EnableLeaderElection := false, MetricsAddr := "", ProbeAddr := "",
    LokiGatewayUrl := "", LogLevel := "", LokiLabels := "" }

/-- The settings of the process-wide viper instance that `LoadConfig` writes. -/
structure Viper where
  configPaths : List String
  configName : String
  configType : String
  automaticEnv : Bool
deriving DecidableEq, Repr

/-- The process-wide viper instance before `LoadConfig` touches it. -/
def viper0 : Viper :=
  { configPaths := [], configName := "config", configType := "", automaticEnv := false }

/-- Levels of `zapcore.Level`. -/
inductive Level
  | debug | info | warn | error | dpanic | panic | fatal
deriving DecidableEq, Repr

/-- Struct literal `zap.Options` as `main` fills it. -/
structure ZapOptions where
  StacktraceLevel : Level
  Development : Bool
  Level : Level
deriving DecidableEq, Repr

/-- The runtime scheme, by the type groups registered in it. -/
structure Scheme where
  groups : List String
deriving DecidableEq, Repr

/-- Package variable `scheme`, after `init` added the client-go scheme. -/
def scheme : Scheme := { groups := ["clientgoscheme"] }

/-- The fields of `ctrl.Options` that `main` sets. -/
structure Options where
  Scheme : Scheme
  MetricsBindAddress : String
  Port : Nat
  HealthProbeBindAddress : String
  LeaderElection : Bool
  LeaderElectionID : String
deriving DecidableEq, Repr

/-- The REST configuration returned by `ctrl.GetConfigOrDie`. -/
structure RestConfig where
  host : String
deriving DecidableEq, Repr

/-- The cluster client handed out by `mgr.GetClient()`. -/
structure K8sClient where
  id : Nat
deriving DecidableEq, Repr

/-- A manager, by what `mgr.GetClient()` and `mgr.GetScheme()` return. -/
structure Manager where
  client : K8sClient
  scheme : Scheme
deriving DecidableEq, Repr

/-- The value returned by `promtail.NewJSONv1Client`. -/
structure PromtailClient where
  id : Nat
deriving DecidableEq, Repr

/-- One line written through a `logr` logger: logger name, severity, the error
(if any), the message and the key/value pairs. -/
structure LogEntry where
  logger : String
  isError : Bool
  err : Option Error
  msg : String
  keysAndValues : List String
deriving DecidableEq, Repr

/-- Options accepted by `promtail.NewJSONv1Client`.  A callback is given by the
log lines it writes when handed an error. -/
inductive ClientOption
  | withErrorCallback (cb : Error → List LogEntry)

/-! ### Data of the forwarding pipeline

The reconciler lives in `internal/controller`, which is not among the sources;
its data is taken from section 3 of the specification. -/

/-- Modelled from the spec: the involved-object reference of a ClusterEvent
(kind, namespace, name, uid); `internal/controller` is missing. -/
structure ObjectRef where
  kind : String
  ns : String
  name : String
  uid : String
deriving DecidableEq, Repr

/-- Modelled from the spec: the type of a ClusterEvent (Normal | Warning);
`internal/controller` is missing. -/
inductive EventType
  | Normal | Warning
deriving DecidableEq, Repr

/-- Modelled from the spec: a ClusterEvent (section 3); `internal/controller`
is missing.  Timestamps are ticks of a logical clock. -/
structure ClusterEvent where
  ns : String
  name : String
  resourceVersion : String
  involved : ObjectRef
  reason : String
  message : String
  type : EventType
  firstSeen : Nat
  lastSeen : Nat
  count : Nat
  source : String
deriving DecidableEq, Repr

/-- Modelled from the spec: the reference (namespace/name) that `Reconcile`
receives; `internal/controller` is missing. -/
structure ObjectKey where
  ns : String
  name : String
deriving DecidableEq, Repr

/-- Modelled from the spec: the DedupKey, identity + reason + message hash,
without the occurrence count and the last-seen timestamp; `internal/controller`
is missing. -/
structure DedupKey where
  ns : String
  name : String
  resourceVersion : String
  reason : String
  messageHash : Nat
deriving DecidableEq, Repr

/-- Modelled from the spec: a LogRecord (timestamp, label set, payload);
`internal/controller` is missing. -/
structure LogRecord where
  timestamp : Nat
  labels : Labels
  payload : ClusterEvent
deriving DecidableEq, Repr

/-- Modelled from the spec: the DeliveryOutcome of section 3;
`internal/controller` is missing. -/
inductive DeliveryOutcome
  | Delivered
  | TransientFailure (reason : String)
  | PermanentFailure (reason : String)
deriving DecidableEq, Repr

/-- Modelled from the spec: the result of `Reconcile` (section 4.1);
`internal/controller` is missing. -/
inductive ReconcileResult
  | Success
  | Requeue (after : Nat)
  | Fatal
deriving DecidableEq, Repr

/-- Modelled from the spec: the Dedup Guard cache of section 4.3, bounded in
size (`capacity`) and in time (`ttl`); `entries` holds each forwarded key with
the time it was marked, most recently used first.  `internal/controller` is
missing. -/
structure DedupGuard where
  capacity : Nat
  ttl : Nat
  entries : List (DedupKey × Nat)
deriving DecidableEq, Repr

/-- Modelled from the spec: what the reconciler keeps between calls: the guard,
the failed attempts so far per object, every record handed to `Deliver`, and
the markers of dropped events.  `internal/controller` is missing. -/
structure ReconcilerState where
  guard : DedupGuard
  attempts : List (ObjectKey × Nat)
  delivered : List LogRecord
  errorLog : List LogEntry
  dropped : List (ObjectKey × String)
deriving DecidableEq, Repr

/-- Modelled from the spec: the Forwarding Client of section 4.2, by its
configuration inputs (endpoint URL, static label set) and its pluggable
error callback.  The client code is missing. -/
structure ForwardingClient where
  url : String
  labels : Labels
  onError : Error → List LogEntry

/-- The state of the process that a health check could read. -/
structure CoreState where
  config : Config
  reconciler : ReconcilerState
  client : ForwardingClient

/-- An incoming probe request. -/
structure Request where
  path : String
deriving DecidableEq, Repr

/-- Type `healthz.Checker`, a Go function value: it may read the state of the
process and the request; `none` is the nil error (healthy). -/
abbrev Checker := CoreState → Request → Option Error

/-- Modelled from the spec: value `healthz.Ping` of controller-runtime, which is
not among the sources: a simple liveness ping, unaffected by core internal
state, that returns nil for every request. -/
def Ping : Checker := fun _ _ => none

/-- Struct literal `controller.EventReconciler` as `main` fills it. -/
structure EventReconciler where
  Client : K8sClient
  Scheme : Scheme
  PromtailClient : PromtailClient
  CommonLabels : Labels
deriving DecidableEq, Repr

/-- Every call that `LoadConfig` and `main` make, with its arguments. -/
inductive Call
  | viperAddConfigPath (path : String)
  | logPrint (msg : String)
  | viperSetConfigName (name : String)
  | viperSetConfigType (t : String)
  | viperAutomaticEnv
  | viperReadInConfig
  | viperUnmarshal
  | loadConfig (path : String)
  | parseLevel (text : String)
  | setLogger (opts : ZapOptions)
  | getConfigOrDie
  | newManager (cfg : RestConfig) (opts : Options)
  | jsonUnmarshal (data : String) (into : Labels)
  | newJSONv1Client (url : String) (labels : Labels) (options : List ClientOption)
  | deferClose (c : PromtailClient)
  | clientClose (c : PromtailClient)
  | log (entry : LogEntry)
  | setupWithManager (r : EventReconciler) (mgr : Manager)
  | addHealthzCheck (mgr : Manager) (name : String) (check : Checker)
  | addReadyzCheck (mgr : Manager) (name : String) (check : Checker)
  | setupSignalHandler
  | mgrStart (mgr : Manager)

/-- The collaborators of the program: what each library call returns.  An
`Option Error` result is Go's `error` (`none` is nil). -/
structure World where
  /-- Method `viper.ReadInConfig`. -/
  readInConfig : Viper → Option Error
  /-- Method `viper.Unmarshal(&config)`: the config it leaves behind and its error. -/
  viperUnmarshal : Viper → Config → Config × Option Error
  /-- Function `zapcore.ParseLevel`. -/
  parseLevel : String → Except Error Level
  /-- Function `ctrl.GetConfigOrDie`: `none` when it exits the process. -/
  getConfigOrDie : Option RestConfig
  /-- Function `ctrl.NewManager`. -/
  newManager : RestConfig → Options → Except Error Manager
  /-- Function `json.Unmarshal(data, &labels)`: the map it leaves behind and its error. -/
  jsonUnmarshal : String → Labels → Labels × Option Error
  /-- Function `promtail.NewJSONv1Client`. -/
  newJSONv1Client : String → Labels → List ClientOption → Except Error PromtailClient
  /-- Method `(*EventReconciler).SetupWithManager`. -/
  setupWithManager : EventReconciler → Manager → Option Error
  /-- Method `mgr.AddHealthzCheck`. -/
  addHealthzCheck : Manager → String → Checker → Option Error
  /-- Method `mgr.AddReadyzCheck`. -/
  addReadyzCheck : Manager → String → Checker → Option Error
  /-- Method `mgr.Start`. -/
  start : Manager → Option Error

/-! ## `utils/config.go` -/

/-- What `LoadConfig` returns (`config`, `err`) together with the viper
settings it leaves and the calls it made. -/
structure LoadResult where
  config : Config
  err : Option Error
  viper : Viper
  trace : List Call

/-- Function `LoadConfig` of `utils/config.go`. -/
def LoadConfig (w : World) (v : Viper) (path : String) : LoadResult :=
  let v1 := { v with configPaths := v.configPaths ++ [path] }
  let v2 := { v1 with configName := "config" }
  let v3 := { v2 with configType := "env" }
  let v4 := { v3 with automaticEnv := true }
  let t := [Call.viperAddConfigPath path, Call.logPrint path,
            Call.viperSetConfigName "config", Call.viperSetConfigType "env",
            Call.viperAutomaticEnv, Call.viperReadInConfig]
  match w.readInConfig v4 with
  | some err => { config := Config.zero, err := some err, viper := v4, trace := t }
  | none =>
    let r := w.viperUnmarshal v4 Config.zero
    { config := r.1, err := r.2, viper := v4, trace := t ++ [Call.viperUnmarshal] }

/-- The viper settings in force when `LoadConfig` reads and decodes. -/
def loadViper (v : Viper) (path : String) : Viper :=
  { configPaths := v.configPaths ++ [path], configName := "config",
    configType := "env", automaticEnv := true }

/-! ## `encoding/json` for a `map[string]string`

Function `json.Unmarshal` belongs to the Go standard library and is not among
the sources.  Its validity check is the byte-by-byte scanner of `scanner.go`,
written here on characters (every piece of JSON syntax is ASCII, and what is
not ASCII is accepted inside string literals only); the decoding that follows
is what `decode.go` does with a `map[string]string` target.  The text of an
error is shortened; `main` only passes it to `panic`. -/

/-- Function `isSpace` of scanner.go. -/
def isSpace (c : Char) : Bool :=
  c = ' ' || c = '\t' || c = '\r' || c = '\n'

/-- Whether a character is a decimal digit. -/
def isDigit (c : Char) : Bool := '0' ≤ c && c ≤ '9'

/-- Whether a character is a hexadecimal digit, as the scanner tests it. -/
def isHex (c : Char) : Bool :=
  ('0' ≤ c && c ≤ '9') || ('a' ≤ c && c ≤ 'f') || ('A' ≤ c && c ≤ 'F')

/-- The entries of the scanner's `parseState` stack. -/
inductive ParseState
  | objectKey | objectValue | arrayValue
deriving DecidableEq, Repr

/-- The step functions of scanner.go (`stateBeginValue`, `stateInString`, ...). -/
inductive ScanStep
  | beginValueOrEmpty | beginValue | beginStringOrEmpty | beginString
  | endValue | endTop
  | inString | inStringEsc | inStringEscU | inStringEscU1 | inStringEscU12 | inStringEscU123
  | neg | s1 | s0 | dot | dot0 | e | eSign | e0
  | t | tr | tru | f | fa | fal | fals | n | nu | nul
  | error
deriving DecidableEq, Repr

/-- Struct `scanner` of scanner.go; the innermost parse state is the head. -/
structure Scanner where
  step : ScanStep
  parseState : List ParseState
  err : Option Error
  endTop : Bool
deriving DecidableEq, Repr

/-- Constant `maxNestingDepth` of scanner.go. -/
def maxNestingDepth : Nat := 10000

/-- Method `scanner.reset`. -/
def Scanner.reset : Scanner :=
  { step := ScanStep.beginValue, parseState := [], err := none, endTop := false }

/-- Method `scanner.error`: it records a syntax error (its text is shortened to
the context) and returns `scanError`, which is `true` here. -/
def Scanner.error (s : Scanner) (_c : Char) (context : String) : Scanner × Bool :=
  ({ s with step := ScanStep.error, err := some ("invalid character " ++ context) }, true)

/-- A step that continues with the step function `next`. -/
def Scanner.goto (s : Scanner) (next : ScanStep) : Scanner × Bool :=
  ({ s with step := next }, false)

/-- Method `scanner.pushParseState`. -/
def pushParseState (s : Scanner) (c : Char) (newParseState : ParseState)
    (next : ScanStep) : Scanner × Bool :=
  let s1 := { s with step := next, parseState := newParseState :: s.parseState }
  if s1.parseState.length ≤ maxNestingDepth then (s1, false)
  else s1.error c "exceeded max depth"

/-- Method `scanner.popParseState`. -/
def popParseState (s : Scanner) : Scanner :=
  match s.parseState.tail with
  | [] => { s with parseState := [], step := ScanStep.endTop, endTop := true }
  | p :: rest => { s with parseState := p :: rest, step := ScanStep.endValue }

/-- Function `stateEndTop`: a non-space byte is recorded as an error that the
next call reports. -/
def stateEndTop (s : Scanner) (c : Char) : Scanner × Bool :=
  if isSpace c then (s, false)
  else ((s.error c "after top-level value").1, false)

/-- Function `stateEndValue`. -/
def stateEndValue (s : Scanner) (c : Char) : Scanner × Bool :=
  match s.parseState with
  | [] => stateEndTop { s with step := ScanStep.endTop, endTop := true } c
  | ps :: rest =>
    if isSpace c then s.goto ScanStep.endValue
    else
      match ps with
      | ParseState.objectKey =>
        if c = ':' then
          ({ s with parseState := ParseState.objectValue :: rest,
                    step := ScanStep.beginValue }, false)
        else s.error c "after object key"
      | ParseState.objectValue =>
        if c = ',' then
          ({ s with parseState := ParseState.objectKey :: rest,
                    step := ScanStep.beginString }, false)
        else if c = '}' then (popParseState s, false)
        else s.error c "after object key:value pair"
      | ParseState.arrayValue =>
        if c = ',' then s.goto ScanStep.beginValue
        else if c = ']' then (popParseState s, false)
        else s.error c "after array element"

/-- Function `stateBeginValue`. -/
def stateBeginValue (s : Scanner) (c : Char) : Scanner × Bool :=
  if isSpace c then (s, false)
  else if c = '{' then pushParseState s c ParseState.objectKey ScanStep.beginStringOrEmpty
  else if c = '[' then pushParseState s c ParseState.arrayValue ScanStep.beginValueOrEmpty
  else if c = '"' then s.goto ScanStep.inString
  else if c = '-' then s.goto ScanStep.neg
  else if c = '0' then s.goto ScanStep.s0
  else if c = 't' then s.goto ScanStep.t
  else if c = 'f' then s.goto ScanStep.f
  else if c = 'n' then s.goto ScanStep.n
  else if '1' ≤ c && c ≤ '9' then s.goto ScanStep.s1
  else s.error c "looking for beginning of value"

/-- Function `stateBeginString`. -/
def stateBeginString (s : Scanner) (c : Char) : Scanner × Bool :=
  if isSpace c then (s, false)
  else if c = '"' then s.goto ScanStep.inString
  else s.error c "looking for beginning of object key string"

/-- Function `state0`. -/
def state0 (s : Scanner) (c : Char) : Scanner × Bool :=
  if c = '.' then s.goto ScanStep.dot
  else if c = 'e' || c = 'E' then s.goto ScanStep.e
  else stateEndValue s c

/-- Function `stateESign`. -/
def stateESign (s : Scanner) (c : Char) : Scanner × Bool :=
  if isDigit c then s.goto ScanStep.e0
  else s.error c "in exponent of numeric literal"

/-- One call `s.step(s, c)`: the scanner afterwards and whether the call
returned `scanError`. -/
def scanStep (s : Scanner) (c : Char) : Scanner × Bool :=
  match s.step with
  | ScanStep.beginValueOrEmpty =>
    if isSpace c then (s, false)
    else if c = ']' then stateEndValue s c
    else stateBeginValue s c
  | ScanStep.beginValue => stateBeginValue s c
  | ScanStep.beginStringOrEmpty =>
    if isSpace c then (s, false)
    else if c = '}' then
      stateEndValue { s with parseState := ParseState.objectValue :: s.parseState.tail } c
    else stateBeginString s c
  | ScanStep.beginString => stateBeginString s c
  | ScanStep.endValue => stateEndValue s c
  | ScanStep.endTop => stateEndTop s c
  | ScanStep.inString =>
    if c = '"' then s.goto ScanStep.endValue
    else if c = '\\' then s.goto ScanStep.inStringEsc
    else if c.toNat < 32 then s.error c "in string literal"
    else (s, false)
  | ScanStep.inStringEsc =>
    if c = 'b' || c = 'f' || c = 'n' || c = 'r' || c = 't' || c = '\\' || c = '/' || c = '"'
    then s.goto ScanStep.inString
    else if c = 'u' then s.goto ScanStep.inStringEscU
    else s.error c "in string escape code"
  | ScanStep.inStringEscU =>
    if isHex c then s.goto ScanStep.inStringEscU1
    else s.error c "in \\u hexadecimal character escape"
  | ScanStep.inStringEscU1 =>
    if isHex c then s.goto ScanStep.inStringEscU12
    else s.error c "in \\u hexadecimal character escape"
  | ScanStep.inStringEscU12 =>
    if isHex c then s.goto ScanStep.inStringEscU123
    else s.error c "in \\u hexadecimal character escape"
  | ScanStep.inStringEscU123 =>
    if isHex c then s.goto ScanStep.inString
    else s.error c "in \\u hexadecimal character escape"
  | ScanStep.neg =>
    if c = '0' then s.goto ScanStep.s0
    else if '1' ≤ c && c ≤ '9' then s.goto ScanStep.s1
    else s.error c "in numeric literal"
  | ScanStep.s1 => if isDigit c then s.goto ScanStep.s1 else state0 s c
  | ScanStep.s0 => state0 s c
  | ScanStep.dot =>
    if isDigit c then s.goto ScanStep.dot0
    else s.error c "after decimal point in numeric literal"
  | ScanStep.dot0 =>
    if isDigit c then (s, false)
    else if c = 'e' || c = 'E' then s.goto ScanStep.e
    else stateEndValue s c
  | ScanStep.e =>
    if c = '+' || c = '-' then s.goto ScanStep.eSign else stateESign s c
  | ScanStep.eSign => stateESign s c
  | ScanStep.e0 => if isDigit c then (s, false) else stateEndValue s c
  | ScanStep.t => if c = 'r' then s.goto ScanStep.tr else s.error c "in literal true"
  | ScanStep.tr => if c = 'u' then s.goto ScanStep.tru else s.error c "in literal true"
  | ScanStep.tru => if c = 'e' then s.goto ScanStep.endValue else s.error c "in literal true"
  | ScanStep.f => if c = 'a' then s.goto ScanStep.fa else s.error c "in literal false"
  | ScanStep.fa => if c = 'l' then s.goto ScanStep.fal else s.error c "in literal false"
  | ScanStep.fal => if c = 's' then s.goto ScanStep.fals else s.error c "in literal false"
  | ScanStep.fals =>
    if c = 'e' then s.goto ScanStep.endValue else s.error c "in literal false"
  | ScanStep.n => if c = 'u' then s.goto ScanStep.nu else s.error c "in literal null"
  | ScanStep.nu => if c = 'l' then s.goto ScanStep.nul else s.error c "in literal null"
  | ScanStep.nul => if c = 'l' then s.goto ScanStep.endValue else s.error c "in literal null"
  | ScanStep.error => (s, true)

/-- Method `scanner.eof`: the error it leaves, `none` when the input was a
complete JSON value. -/
def Scanner.eof (s : Scanner) : Option Error :=
  match s.err with
  | some err => some err
  | none =>
    if s.endTop then none
    else
      let s1 := (scanStep s ' ').1
      if s1.endTop then none
      else
        match s1.err with
        | some err => some err
        | none => some "unexpected end of JSON input"

/-- The loop of `checkValid` from scanner state `s` on. -/
def checkValidFrom (s : Scanner) : List Char → Option Error
  | [] => s.eof
  | c :: rest =>
    let r := scanStep s c
    if r.2 then r.1.err else checkValidFrom r.1 rest

/-- Function `checkValid` of scanner.go: `none` when `data` is valid JSON. -/
def checkValid (data : String) : Option Error :=
  checkValidFrom Scanner.reset data.toList

/-- The value of a hexadecimal digit. -/
def hexVal (c : Char) : Nat :=
  if '0' ≤ c && c ≤ '9' then c.toNat - '0'.toNat
  else if 'a' ≤ c && c ≤ 'f' then c.toNat - 'a'.toNat + 10
  else if 'A' ≤ c && c ≤ 'F' then c.toNat - 'A'.toNat + 10
  else 0

/-- Function `getu4` of decode.go on the four digits of a `\u` escape. -/
def getu4 (a b c d : Char) : Nat :=
  ((hexVal a * 16 + hexVal b) * 16 + hexVal c) * 16 + hexVal d

/-- The character of a single-letter escape. -/
def unescape (c : Char) : Char :=
  if c = 'b' then Char.ofNat 8
  else if c = 'f' then Char.ofNat 12
  else if c = 'n' then '\n'
  else if c = 'r' then '\r'
  else if c = 't' then '\t'
  else c

/-- Function `unquote` of decode.go on the characters between the quotes of a
valid string literal: escapes are replaced, a surrogate pair of `\u` escapes
becomes one character and a lone surrogate the replacement character. -/
def unquoteChars : List Char → List Char
  | [] => []
  | '\\' :: 'u' :: a :: b :: c :: d :: '\\' :: 'u' :: a2 :: b2 :: c2 :: d2 :: rest =>
    let rr := getu4 a b c d
    let rr1 := getu4 a2 b2 c2 d2
    if 0xd800 ≤ rr && rr < 0xe000 then
      if rr < 0xdc00 && 0xdc00 ≤ rr1 && rr1 < 0xe000 then
        Char.ofNat ((rr - 0xd800) * 1024 + (rr1 - 0xdc00) + 0x10000) :: unquoteChars rest
      else
        Char.ofNat 0xfffd :: unquoteChars ('\\' :: 'u' :: a2 :: b2 :: c2 :: d2 :: rest)
    else
      Char.ofNat rr :: unquoteChars ('\\' :: 'u' :: a2 :: b2 :: c2 :: d2 :: rest)
  | '\\' :: 'u' :: a :: b :: c :: d :: rest =>
    let rr := getu4 a b c d
    if 0xd800 ≤ rr && rr < 0xe000 then Char.ofNat 0xfffd :: unquoteChars rest
    else Char.ofNat rr :: unquoteChars rest
  | '\\' :: c :: rest => unescape c :: unquoteChars rest
  | c :: rest => c :: unquoteChars rest

/-- Setting `m[k] = v` in a Go map: an existing entry is overwritten. -/
def setLabel (m : Labels) (k v : String) : Labels :=
  if (m.lookup k).isSome then m.map (fun kv => if kv.1 = k then (k, v) else kv)
  else m ++ [(k, v)]

/-- Where the decoder of a `map[string]string` stands in a valid JSON text. -/
inductive DecodeMode
  /-- Before the top-level value. -/
  | top
  /-- The top-level value was `null` or of a kind a map cannot take; the rest
  of the text is skipped. -/
  | skipTop
  /-- In the object, before a key or the closing brace. -/
  | beforeKey
  /-- In a key; `raw` holds its characters so far, last first. -/
  | inKey (raw : List Char) (esc : Bool)
  /-- After a key, before the colon. -/
  | afterKey (key : String)
  /-- After the colon, before the value. -/
  | beforeValue (key : String)
  /-- In a string value. -/
  | inValue (key : String) (raw : List Char) (esc : Bool)
  /-- In or after a value at the level of the object, before the comma or the
  closing brace. -/
  | afterValue
  /-- In an array or object value, which is skipped. -/
  | skipNested (depth : Nat) (inStr : Bool) (esc : Bool)
  /-- After the closing brace. -/
  | done
deriving DecidableEq, Repr

/-- The decoder of decode.go (`decodeState`) working on a `map[string]string`:
the map so far and the first saved error. -/
structure DecodeState where
  mode : DecodeMode
  labels : Labels
  savedError : Option Error
deriving DecidableEq, Repr

/-- Method `decodeState.saveError` with an `UnmarshalTypeError`: only the first
error is kept. -/
def DecodeState.saveError (d : DecodeState) (value goType : String) : DecodeState :=
  match d.savedError with
  | some _ => d
  | none =>
    let err := "json: cannot unmarshal " ++ value ++ " into Go value of type " ++ goType
    { d with savedError := some err }

/-- The JSON kind a value starts with, as `UnmarshalTypeError.Value` names it. -/
def valueKind (c : Char) : String :=
  if c = '"' then "string"
  else if c = '[' then "array"
  else if c = '{' then "object"
  else if c = 't' || c = 'f' then "bool"
  else "number"

/-- One character of a valid JSON text, seen by `decodeState.value` with a
`map[string]string` target (methods `object` and `literalStore` of decode.go).
A top-level `null` sets the map to nil; a top-level value that is not an object
is a type error.  In an object each key is stored: with the string value, with
the empty string for `null`, and with the empty string and a saved type error
for a value of any other kind. -/
def decodeStep (d : DecodeState) (c : Char) : DecodeState :=
  match d.mode with
  | DecodeMode.top =>
    if isSpace c then d
    else if c = '{' then { d with mode := DecodeMode.beforeKey }
    else if c = 'n' then { d with mode := DecodeMode.skipTop, labels := [] }
    else { (d.saveError (valueKind c) "map[string]string") with mode := DecodeMode.skipTop }
  | DecodeMode.skipTop => d
  | DecodeMode.beforeKey =>
    if c = '"' then { d with mode := DecodeMode.inKey [] false }
    else if c = '}' then { d with mode := DecodeMode.done }
    else d
  | DecodeMode.inKey raw esc =>
    if esc then { d with mode := DecodeMode.inKey (c :: raw) false }
    else if c = '\\' then { d with mode := DecodeMode.inKey (c :: raw) true }
    else if c = '"' then
      { d with mode := DecodeMode.afterKey (String.mk (unquoteChars raw.reverse)) }
    else { d with mode := DecodeMode.inKey (c :: raw) false }
  | DecodeMode.afterKey key =>
    if c = ':' then { d with mode := DecodeMode.beforeValue key } else d
  | DecodeMode.beforeValue key =>
    if isSpace c then d
    else if c = '"' then { d with mode := DecodeMode.inValue key [] false }
    else if c = 'n' then
      { d with mode := DecodeMode.afterValue, labels := setLabel d.labels key "" }
    else if c = '[' || c = '{' then
      { (d.saveError (valueKind c) "string") with
        mode := DecodeMode.skipNested 1 false false, labels := setLabel d.labels key "" }
    else
      { (d.saveError (valueKind c) "string") with
        mode := DecodeMode.afterValue, labels := setLabel d.labels key "" }
  | DecodeMode.inValue key raw esc =>
    if esc then { d with mode := DecodeMode.inValue key (c :: raw) false }
    else if c = '\\' then { d with mode := DecodeMode.inValue key (c :: raw) true }
    else if c = '"' then
      { d with mode := DecodeMode.afterValue,
               labels := setLabel d.labels key (String.mk (unquoteChars raw.reverse)) }
    else { d with mode := DecodeMode.inValue key (c :: raw) false }
  | DecodeMode.afterValue =>
    if c = ',' then { d with mode := DecodeMode.beforeKey }
    else if c = '}' then { d with mode := DecodeMode.done }
    else d
  | DecodeMode.skipNested depth inStr esc =>
    if inStr then
      if esc then { d with mode := DecodeMode.skipNested depth true false }
      else if c = '\\' then { d with mode := DecodeMode.skipNested depth true true }
      else if c = '"' then { d with mode := DecodeMode.skipNested depth false false }
      else d
    else if c = '"' then { d with mode := DecodeMode.skipNested depth true false }
    else if c = '[' || c = '{' then
      { d with mode := DecodeMode.skipNested (depth + 1) false false }
    else if c = ']' || c = '}' then
      if depth ≤ 1 then { d with mode := DecodeMode.afterValue }
      else { d with mode := DecodeMode.skipNested (depth - 1) false false }
    else d
  | DecodeMode.done => d

/-- Function `json.Unmarshal(data, &labels)` of `encoding/json` for a
`map[string]string` holding `into`: `checkValid` first, which on a syntax error
leaves the map untouched, then the decoding of the value; the result is the
map left behind and the error returned. -/
def jsonUnmarshal (data : String) (into : Labels) : Labels × Option Error :=
  match checkValid data with
  | some err => (into, some err)
  | none =>
    let d := data.toList.foldl decodeStep
      { mode := DecodeMode.top, labels := into, savedError := none }
    (d.labels, d.savedError)

/-! ## `cmd/main.go` -/

/-- How `main` ends: it returns, or the statement that ends the process. -/
inductive Exit
  | returned
  | logFatal (msg : String) (err : Error)
  | osExit (code : Nat)
  | panic (err : Error)
deriving DecidableEq, Repr

/-- One execution of `main`: the calls it made, in order, and how it ended. -/
structure Run where
  trace : List Call
  exit : Exit

/-- The closure passed to `promtail.WithErrorCallback`: it writes the error to
the logger named "promtail". -/
def promtailErrorCallback (err : Error) : List LogEntry :=
  [{ logger := "promtail", isError := true, err := some err,
     msg := "promtail client internal error", keysAndValues := [] }]

/-- Call `setupLog.Error(err, msg, keysAndValues...)`. -/
def setupLogError (err : Error) (msg : String) (kvs : List String) : LogEntry :=
  { logger := "setup", isError := true, err := some err, msg := msg, keysAndValues := kvs }

/-- Call `setupLog.Info(msg, keysAndValues...)`. -/
def setupLogInfo (msg : String) (kvs : List String) : LogEntry :=
  { logger := "setup", isError := false, err := none, msg := msg, keysAndValues := kvs }

/-- The `zap.Options` literal of `main`. -/
def zapOptions (logLevel : Level) : ZapOptions :=
  { StacktraceLevel := Level.dpanic, Development := true, Level := logLevel }

/-- The `ctrl.Options` literal of `main`. -/
def managerOptions (config : Config) : Options :=
  { Scheme := scheme,
    MetricsBindAddress := config.MetricsAddr,
    Port := 9443,
    HealthProbeBindAddress := config.ProbeAddr,
    LeaderElection := config.EnableLeaderElection,
    LeaderElectionID := "ea28a4b8.eventviewer" }

/-- The `controller.EventReconciler` literal of `main`. -/
def eventReconciler (mgr : Manager) (client : PromtailClient) (labels : Labels) :
    EventReconciler :=
  { Client := mgr.client, Scheme := mgr.scheme, PromtailClient := client,
    CommonLabels := labels }

/-- Function `main` of `cmd/main.go`. -/
def main (w : World) : Run :=
  let r := LoadConfig w viper0 "."
  let config := r.config
  let t1 := [Call.loadConfig "."]
  match r.err with
  | some err => { trace := t1, exit := Exit.logFatal "cannot load config:" err }
  | none =>
  let t2 := t1 ++ [Call.parseLevel config.LogLevel]
  match w.parseLevel config.LogLevel with
  | Except.error err => { trace := t2, exit := Exit.logFatal "failed to parse log level:" err }
  | Except.ok logLevel =>
  let opts := zapOptions logLevel
  let t3 := t2 ++ [Call.setLogger opts, Call.getConfigOrDie]
  match w.getConfigOrDie with
  | none => { trace := t3, exit := Exit.osExit 1 }
  | some restConfig =>
  let t4 := t3 ++ [Call.newManager restConfig (managerOptions config)]
  match w.newManager restConfig (managerOptions config) with
  | Except.error err =>
    { trace := t4 ++ [Call.log (setupLogError err "unable to start manager" [])],
      exit := Exit.osExit 1 }
  | Except.ok mgr =>
  let decoded := w.jsonUnmarshal config.LokiLabels []
  let labels := decoded.1
  let t5 := t4 ++ [Call.jsonUnmarshal config.LokiLabels []]
  match decoded.2 with
  | some err => { trace := t5, exit := Exit.panic err }
  | none =>
  let lokiPushGatewayUrl := config.LokiGatewayUrl
  let promtailOptions := ClientOption.withErrorCallback promtailErrorCallback
  let t6 := t5 ++ [Call.newJSONv1Client lokiPushGatewayUrl labels [promtailOptions]]
  match w.newJSONv1Client lokiPushGatewayUrl labels [promtailOptions] with
  | Except.error err =>
    { trace := t6 ++ [Call.log (setupLogError err "unable to start promtail client" [])],
      exit := Exit.osExit 1 }
  | Except.ok promtailJsonClient =>
  let reconciler := eventReconciler mgr promtailJsonClient labels
  let t7 := t6 ++ [Call.deferClose promtailJsonClient,
    Call.log (setupLogInfo "starting promtail client"
      ["lokiPushGatewayUrl", lokiPushGatewayUrl]),
    Call.setupWithManager reconciler mgr]
  match w.setupWithManager reconciler mgr with
  | some err =>
    { trace := t7 ++ [Call.log (setupLogError err "unable to create controller"
        ["controller", "Event"])],
      exit := Exit.osExit 1 }
  | none =>
  let t8 := t7 ++ [Call.addHealthzCheck mgr "healthz" Ping]
  match w.addHealthzCheck mgr "healthz" Ping with
  | some err =>
    { trace := t8 ++ [Call.log (setupLogError err "unable to set up health check" [])],
      exit := Exit.osExit 1 }
  | none =>
  let t9 := t8 ++ [Call.addReadyzCheck mgr "readyz" Ping]
  match w.addReadyzCheck mgr "readyz" Ping with
  | some err =>
    { trace := t9 ++ [Call.log (setupLogError err "unable to set up ready check" [])],
      exit := Exit.osExit 1 }
  | none =>
  let t10 := t9 ++ [Call.log (setupLogInfo "starting manager" []),
    Call.setupSignalHandler, Call.mgrStart mgr]
  match w.start mgr with
  | some err =>
    { trace := t10 ++ [Call.log (setupLogError err "problem running manager" [])],
      exit := Exit.osExit 1 }
  | none => { trace := t10 ++ [Call.clientClose promtailJsonClient], exit := Exit.returned }

/-- The startup steps of `main`, one per fallible call. -/
inductive Step
  | loadConfig | parseLevel | getConfig | newManager | decodeLabels | newClient
  | setupWithManager | healthz | readyz | start
deriving DecidableEq, Repr

/-- The startup step a call belongs to (`none` for logging and bookkeeping). -/
def stepOf : Call → Option Step
  | Call.loadConfig _ => some Step.loadConfig
  | Call.parseLevel _ => some Step.parseLevel
  | Call.getConfigOrDie => some Step.getConfig
  | Call.newManager _ _ => some Step.newManager
  | Call.jsonUnmarshal _ _ => some Step.decodeLabels
  | Call.newJSONv1Client _ _ _ => some Step.newClient
  | Call.setupWithManager _ _ => some Step.setupWithManager
  | Call.addHealthzCheck _ _ _ => some Step.healthz
  | Call.addReadyzCheck _ _ _ => some Step.readyz
  | Call.mgrStart _ => some Step.start
  | _ => none

/-- The startup steps performed in a trace, in order. -/
def steps (t : List Call) : List Step := t.filterMap stepOf

/-- The order in which `main` performs its startup steps. -/
def startupOrder : List Step :=
  [Step.loadConfig, Step.parseLevel, Step.getConfig, Step.newManager, Step.decodeLabels,
   Step.newClient, Step.setupWithManager, Step.healthz, Step.readyz, Step.start]

/-- The startup order up to and including step `s`. -/
def upTo (s : Step) : List Step := startupOrder.take (startupOrder.indexOf s + 1)

/-- The startup steps that come before step `s` in the startup order. -/
def before (s : Step) : List Step := startupOrder.take (startupOrder.indexOf s)

/-- The configuration `main` works with: the one `LoadConfig` returned. -/
def configOf (w : World) : Config := (LoadConfig w viper0 ".").config

/-- The manager `main` obtains, when `GetConfigOrDie` and `NewManager` succeed. -/
def managerOf (w : World) : Option Manager :=
  match w.getConfigOrDie with
  | none => none
  | some restConfig =>
    match w.newManager restConfig (managerOptions (configOf w)) with
    | Except.error _ => none
    | Except.ok mgr => some mgr

/-- The label map that `json.Unmarshal` leaves in `labels`. -/
def decodedLabels (w : World) : Labels := (w.jsonUnmarshal (configOf w).LokiLabels []).1

/-- The promtail client `main` obtains, when `NewJSONv1Client` succeeds. -/
def clientOf (w : World) : Option PromtailClient :=
  match w.newJSONv1Client (configOf w).LokiGatewayUrl (decodedLabels w)
      [ClientOption.withErrorCallback promtailErrorCallback] with
  | Except.error _ => none
  | Except.ok c => some c

/-- Whether the call of a startup step, made with the arguments `main` passes,
returns without an error. -/
def stepOk (w : World) : Step → Bool
  | Step.loadConfig => (LoadConfig w viper0 ".").err.isNone
  | Step.parseLevel =>
    match w.parseLevel (configOf w).LogLevel with
    | Except.error _ => false
    | Except.ok _ => true
  | Step.getConfig => w.getConfigOrDie.isSome
  | Step.newManager => (managerOf w).isSome
  | Step.decodeLabels => (w.jsonUnmarshal (configOf w).LokiLabels []).2.isNone
  | Step.newClient => (clientOf w).isSome
  | Step.setupWithManager =>
    match managerOf w, clientOf w with
    | some mgr, some c =>
      (w.setupWithManager (eventReconciler mgr c (decodedLabels w)) mgr).isNone
    | _, _ => false
  | Step.healthz =>
    match managerOf w with
    | some mgr => (w.addHealthzCheck mgr "healthz" Ping).isNone
    | none => false
  | Step.readyz =>
    match managerOf w with
    | some mgr => (w.addReadyzCheck mgr "readyz" Ping).isNone
    | none => false
  | Step.start =>
    match managerOf w with
    | some mgr => (w.start mgr).isNone
    | none => false

/-! ## Forwarding pipeline

The reconciler, the dedup guard, the label enricher and the retry policy live
in `internal/controller`, and the forwarding client in the promtail library;
neither is among the sources.  They are written here from sections 3 and 4 of
the specification. -/

/-- Modelled from the spec: the DedupKey of an event, "identity + reason +
message hash", with the hash function left open; `internal/controller` is
missing. -/
def dedupKey (hash : String → Nat) (e : ClusterEvent) : DedupKey :=
  { ns := e.ns, name := e.name, resourceVersion := e.resourceVersion,
    reason := e.reason, messageHash := hash e.message }

/-- Modelled from the spec: the per-event derived labels (namespace,
involved-object kind, reason); `internal/controller` is missing. -/
def derivedLabels (e : ClusterEvent) : Labels :=
  [("namespace", e.ns), ("kind", e.involved.kind), ("reason", e.reason)]

/-- Modelled from the spec: applying one derived label: it is added unless the
key is already present; `internal/controller` is missing. -/
def applyDerived (acc : Labels) (kv : String × String) : Labels :=
  match acc.lookup kv.1 with
  | some _ => acc
  | none => acc ++ [kv]

/-- Modelled from the spec: the merge of section 4.4: "CommonLabels are applied
first; per-event derived labels are applied second and do not override a
CommonLabels key of the same name"; `internal/controller` is missing. -/
def mergeLabels (common derived : Labels) : Labels :=
  derived.foldl applyDerived common

/-- Modelled from the spec: the Label Enricher and Record Encoder: the record
of an event, with the merged label set and the event as payload (the spec does
not say which timestamp; the last-seen one is used); `internal/controller` is
missing. -/
def encode (common : Labels) (e : ClusterEvent) : LogRecord :=
  { timestamp := e.lastSeen, labels := mergeLabels common (derivedLabels e), payload := e }

/-- Modelled from the spec: the pre-jitter retry delay of section 4.2,
"delay = min(base × 2^attempt, maxDelay)"; `internal/controller` is missing. -/
def backoffDelay (base maxDelay attempt : Nat) : Nat :=
  min (base * 2 ^ attempt) maxDelay

/-- Modelled from the spec: the entries of the guard that the hard TTL has not
yet removed at time `now`; `internal/controller` is missing. -/
def DedupGuard.live (g : DedupGuard) (now : Nat) : List (DedupKey × Nat) :=
  g.entries.filter (fun p => decide (now < p.2 + g.ttl))

/-- Modelled from the spec: `HasForwarded(key) -> bool` of section 4.3; a hit
makes the entry the most recently used one; `internal/controller` is missing. -/
def HasForwarded (g : DedupGuard) (key : DedupKey) (now : Nat) : Bool × DedupGuard :=
  let live := g.live now
  let hits := live.filter (fun p => decide (p.1 = key))
  let rest := live.filter (fun p => decide (p.1 ≠ key))
  (!hits.isEmpty, { g with entries := hits ++ rest })

/-- Modelled from the spec: `MarkForwarded(key)` of section 4.3: the key becomes
the most recently used entry and the least recently used ones beyond the
capacity are evicted; `internal/controller` is missing. -/
def MarkForwarded (g : DedupGuard) (key : DedupKey) (now : Nat) : DedupGuard :=
  let rest := (g.live now).filter (fun p => decide (p.1 ≠ key))
  { g with entries := ((key, now) :: rest).take g.capacity }

/-- Modelled from the spec: what the remote sink answers to one push (section
4.2 names these classes); the client code is missing. -/
inductive SinkResponse
  | accepted
  | connectionError
  | timeout
  | serverError
  | malformedPayload
  | clientError
deriving DecidableEq, Repr

/-- Modelled from the spec: the failure classification of section 4.2:
"connection errors, timeouts, and 5xx-equivalent responses are Transient;
malformed-payload or 4xx-equivalent responses are Permanent"; the client code
is missing. -/
def classify : SinkResponse → DeliveryOutcome
  | SinkResponse.accepted => DeliveryOutcome.Delivered
  | SinkResponse.connectionError => DeliveryOutcome.TransientFailure "connection error"
  | SinkResponse.timeout => DeliveryOutcome.TransientFailure "timeout"
  | SinkResponse.serverError => DeliveryOutcome.TransientFailure "5xx response"
  | SinkResponse.malformedPayload => DeliveryOutcome.PermanentFailure "malformed payload"
  | SinkResponse.clientError => DeliveryOutcome.PermanentFailure "4xx response"

/-- Modelled from the spec: construction of the Forwarding Client from its
configuration inputs and options: the last error callback given is installed,
and without one errors are written nowhere; the client code is missing. -/
def newForwardingClient (url : String) (labels : Labels) (options : List ClientOption) :
    ForwardingClient :=
  { url := url, labels := labels,
    onError := options.foldl (fun _ o => match o with
      | ClientOption.withErrorCallback cb => cb) (fun _ => []) }

/-- Modelled from the spec: `Deliver(record) -> DeliveryOutcome` of section 4.2,
one delivery attempt: the outcome and the log lines written by the error
callback, which is invoked "on every failed attempt"; the client code is
missing. -/
def Deliver (c : ForwardingClient) (sink : LogRecord → SinkResponse) (record : LogRecord) :
    DeliveryOutcome × List LogEntry :=
  match classify (sink record) with
  | DeliveryOutcome.Delivered => (DeliveryOutcome.Delivered, [])
  | DeliveryOutcome.TransientFailure reason =>
    (DeliveryOutcome.TransientFailure reason, c.onError reason)
  | DeliveryOutcome.PermanentFailure reason =>
    (DeliveryOutcome.PermanentFailure reason, c.onError reason)

/-- Modelled from the spec: the configuration of the reconciler: the message
hash of the DedupKey, the CommonLabels, the retry policy (base delay, maximum
delay, maximum attempt count) and the forwarding client; `internal/controller`
is missing. -/
structure Pipeline where
  hash : String → Nat
  common : Labels
  base : Nat
  maxDelay : Nat
  maxAttempts : Nat
  client : ForwardingClient

/-- Modelled from the spec: the failed attempts recorded for an object in the
retry state; `internal/controller` is missing. -/
def attemptsOf (s : ReconcilerState) (k : ObjectKey) : Nat :=
  (s.attempts.lookup k).getD 0

/-- Modelled from the spec: the retry state with the attempts of `k` set to `n`;
`internal/controller` is missing. -/
def setAttempts (l : List (ObjectKey × Nat)) (k : ObjectKey) (n : Nat) :
    List (ObjectKey × Nat) :=
  (k, n) :: l.filter (fun p => decide (p.1 ≠ k))

/-- Modelled from the spec: the retry state without `k`; `internal/controller`
is missing. -/
def clearAttempts (l : List (ObjectKey × Nat)) (k : ObjectKey) : List (ObjectKey × Nat) :=
  l.filter (fun p => decide (p.1 ≠ k))

/-- Modelled from the spec: `Reconcile(objectKey)` of section 4.1, at time `now`,
against the current cluster state `cluster` and the remote sink `sink`.  A
vanished object is a success without forwarding; an already forwarded key is a
success without a Deliver call; otherwise the event is enriched, encoded and
delivered: Delivered marks the key, TransientFailure requeues with the backoff
delay until the attempt count is exhausted, PermanentFailure drops the event.
`internal/controller` is missing. -/
def Reconcile (p : Pipeline) (cluster : ObjectKey → Option ClusterEvent)
    (sink : LogRecord → SinkResponse) (now : Nat) (s : ReconcilerState)
    (objectKey : ObjectKey) : ReconcileResult × ReconcilerState :=
  match cluster objectKey with
  | none => (ReconcileResult.Success, s)
  | some e =>
    let key := dedupKey p.hash e
    let seen := HasForwarded s.guard key now
    if seen.1 then (ReconcileResult.Success, { s with guard := seen.2 })
    else
      let record := encode p.common e
      let out := Deliver p.client sink record
      let s1 := { s with guard := seen.2, delivered := s.delivered ++ [record],
                         errorLog := s.errorLog ++ out.2 }
      match out.1 with
      | DeliveryOutcome.Delivered =>
        (ReconcileResult.Success,
          { s1 with guard := MarkForwarded seen.2 key now,
                    attempts := clearAttempts s1.attempts objectKey })
      | DeliveryOutcome.TransientFailure _ =>
        let n := attemptsOf s objectKey
        if n < p.maxAttempts then
          (ReconcileResult.Requeue (backoffDelay p.base p.maxDelay n),
            { s1 with attempts := setAttempts s1.attempts objectKey (n + 1) })
        else
          (ReconcileResult.Success,
            { s1 with attempts := clearAttempts s1.attempts objectKey,
                      dropped := s1.dropped ++ [(objectKey, "retry-exhausted")] })
      | DeliveryOutcome.PermanentFailure reason =>
        (ReconcileResult.Success,
          { s1 with attempts := clearAttempts s1.attempts objectKey,
                    dropped := s1.dropped ++ [(objectKey, reason)] })

/-! ## Concrete inputs -/

/-- A configuration as a `config.env` file would give it, leader election off. -/
def sampleConfig : Config :=
  { EnableLeaderElection := false, MetricsAddr := ":8080", ProbeAddr := ":8081",
    LokiGatewayUrl := "http://loki:3100/loki/api/v1/push", LogLevel := "info",
    LokiLabels := "\x7b\"cluster\":\"dev\"\x7d" }

/-- A world in which every startup step succeeds and the configuration is
`sampleConfig`. -/
def sampleWorld : World :=
  { readInConfig := fun _ => none,
    viperUnmarshal := fun _ _ => (sampleConfig, none),
    parseLevel := fun text =>
      if text = "info" then Except.ok Level.info else Except.error "unrecognized level",
    getConfigOrDie := some { host := "https://10.0.0.1" },
    newManager := fun _ opts => Except.ok { client := { id := 1 }, scheme := opts.Scheme },
    jsonUnmarshal := jsonUnmarshal,
    newJSONv1Client := fun _ _ _ => Except.ok { id := 7 },
    setupWithManager := fun _ _ => none,
    addHealthzCheck := fun _ _ _ => none,
    addReadyzCheck := fun _ _ _ => none,
    start := fun _ => none }

/-- The world of `sampleWorld` with LOKI_LABELS set to a lone opening brace. -/
def brokenLabelsWorld : World :=
  { sampleWorld with
    viperUnmarshal := fun _ _ => ({ sampleConfig with LokiLabels := "\x7b" }, none) }

/-- The world of `sampleWorld` with LOKI_LABELS set to the JSON text `null`. -/
def nullLabelsWorld : World :=
  { sampleWorld with
    viperUnmarshal := fun _ _ => ({ sampleConfig with LokiLabels := "null" }, none) }

/-- The world of `sampleWorld` with LOKI_LABELS set to an object whose only
value is `null`. -/
def nullValueWorld : World :=
  { sampleWorld with
    viperUnmarshal := fun _ _ =>
      ({ sampleConfig with LokiLabels := "\x7b\"a\":null\x7d" }, none) }

/-- The world of `sampleWorld` without a readable config file. -/
def noFileWorld : World :=
  { sampleWorld with readInConfig := fun _ => some "Config File \"config\" Not Found" }

/-- The world of `sampleWorld` in which the readiness check cannot be added. -/
def readyzFailsWorld : World :=
  { sampleWorld with addReadyzCheck := fun _ _ _ => some "unable to add new checker" }

/-- The event of scenario 1 of the specification: Scheduled, first occurrence. -/
def sampleEvent : ClusterEvent :=
  { ns := "default", name := "pod-1.17", resourceVersion := "100",
    involved := { kind := "Pod", ns := "default", name := "pod-1", uid := "u-1" },
    reason := "Scheduled", message := "Successfully assigned default/pod-1 to node-a",
    type := EventType.Normal, firstSeen := 10, lastSeen := 10, count := 1,
    source := "default-scheduler" }

/-- Another event, about another pod. -/
def otherEvent : ClusterEvent :=
  { sampleEvent with
    name := "pod-2.2a", reason := "Pulled",
    involved := { kind := "Pod", ns := "default", name := "pod-2", uid := "u-2" },
    message := "Container image already present on machine", source := "kubelet" }

/-- The object key of `otherEvent`. -/
def otherKey : ObjectKey := { ns := "default", name := "pod-2.2a" }

/-- The object key of `sampleEvent`. -/
def sampleKey : ObjectKey := { ns := "default", name := "pod-1.17" }

/-- A cluster state holding `sampleEvent` and `otherEvent`. -/
def sampleCluster : ObjectKey → Option ClusterEvent :=
  fun k => if k = sampleKey then some sampleEvent
    else if k = otherKey then some otherEvent else none

/-- A reconciler configuration: message length as hash, one static label, base
delay 2, maximum delay 60, five attempts, and a client with the callback of
`main`. -/
def samplePipeline : Pipeline :=
  { hash := fun m => m.length, common := [("cluster", "dev")],
    base := 2, maxDelay := 60, maxAttempts := 5,
    client := newForwardingClient "http://loki:3100/loki/api/v1/push" [("cluster", "dev")]
      [ClientOption.withErrorCallback promtailErrorCallback] }

/-- A reconciler that has forwarded nothing yet, with a guard of the given
capacity and TTL. -/
def freshState (capacity ttl : Nat) : ReconcilerState :=
  { guard := { capacity := capacity, ttl := ttl, entries := [] },
    attempts := [], delivered := [], errorLog := [], dropped := [] }

/-- A sink that times out on every record. -/
def sinkTimeout : LogRecord → SinkResponse := fun _ => SinkResponse.timeout

/-! ## Theorems -/

/-- The decoder on the LOKI_LABELS string of `sampleConfig`. -/
theorem sample_labels_decode :
    jsonUnmarshal "\x7b\"cluster\":\"dev\"\x7d" [] = ([("cluster", "dev")], none) := by
  decide

/-- The viper settings `LoadConfig` reads with are those of `loadViper`. -/
theorem LoadConfig_viper (w : World) (v : Viper) (path : String) :
    (LoadConfig w v path).viper = loadViper v path := by
  unfold LoadConfig loadViper
  dsimp only
  split <;> rfl

/-- C10: `LoadConfig` returns an error exactly when `viper.ReadInConfig` fails
or, after a successful read, `viper.Unmarshal` fails; on a failed read it
returns that read error with the zero `Config` and never calls
`viper.Unmarshal`; when both succeed it returns a nil error (and the decoded
config). -/
theorem LoadConfig_error_cases (w : World) (v : Viper) (path : String) :
    ((LoadConfig w v path).err ≠ none ↔
      (w.readInConfig (loadViper v path) ≠ none ∨
        (w.readInConfig (loadViper v path) = none ∧
          (w.viperUnmarshal (loadViper v path) Config.zero).2 ≠ none))) ∧
    (∀ e, w.readInConfig (loadViper v path) = some e →
      (LoadConfig w v path).err = some e ∧
      (LoadConfig w v path).config = Config.zero ∧
      Call.viperUnmarshal ∉ (LoadConfig w v path).trace) ∧
    (w.readInConfig (loadViper v path) = none →
      (w.viperUnmarshal (loadViper v path) Config.zero).2 = none →
      (LoadConfig w v path).err = none ∧
      (LoadConfig w v path).config = (w.viperUnmarshal (loadViper v path) Config.zero).1 ∧
      Call.viperUnmarshal ∈ (LoadConfig w v path).trace) := by
  unfold LoadConfig loadViper
  dsimp only
  cases h : w.readInConfig
      { configPaths := v.configPaths ++ [path], configName := "config",
        configType := "env", automaticEnv := true } with
  | none => simp
  | some e => simp

/-- C10 at a concrete input: without a readable config file `LoadConfig`
returns the read error and the zero configuration, and does not decode. -/
theorem LoadConfig_error_cases_witness :
    (LoadConfig noFileWorld viper0 ".").err = some "Config File \"config\" Not Found" ∧
    (LoadConfig noFileWorld viper0 ".").config = Config.zero ∧
    Call.viperUnmarshal ∉ (LoadConfig noFileWorld viper0 ".").trace :=
  (LoadConfig_error_cases noFileWorld viper0 ".").2.1 "Config File \"config\" Not Found" rfl

/-- The possible executions of `main`: the first step that fails, the steps
performed and whether `main` returned. -/
theorem main_outcome (w : World) :
    (stepOk w Step.loadConfig = false ∧
      steps (main w).trace = upTo Step.loadConfig ∧ (main w).exit ≠ Exit.returned) ∨
    (stepOk w Step.loadConfig = true ∧ stepOk w Step.parseLevel = false ∧
      steps (main w).trace = upTo Step.parseLevel ∧ (main w).exit ≠ Exit.returned) ∨
    (stepOk w Step.loadConfig = true ∧ stepOk w Step.parseLevel = true ∧
      stepOk w Step.getConfig = false ∧
      steps (main w).trace = upTo Step.getConfig ∧ (main w).exit ≠ Exit.returned) ∨
    (stepOk w Step.loadConfig = true ∧ stepOk w Step.parseLevel = true ∧
      stepOk w Step.getConfig = true ∧ stepOk w Step.newManager = false ∧
      steps (main w).trace = upTo Step.newManager ∧ (main w).exit ≠ Exit.returned) ∨
    (stepOk w Step.loadConfig = true ∧ stepOk w Step.parseLevel = true ∧
      stepOk w Step.getConfig = true ∧ stepOk w Step.newManager = true ∧
      stepOk w Step.decodeLabels = false ∧
      steps (main w).trace = upTo Step.decodeLabels ∧ (main w).exit ≠ Exit.returned) ∨
    (stepOk w Step.loadConfig = true ∧ stepOk w Step.parseLevel = true ∧
      stepOk w Step.getConfig = true ∧ stepOk w Step.newManager = true ∧
      stepOk w Step.decodeLabels = true ∧ stepOk w Step.newClient = false ∧
      steps (main w).trace = upTo Step.newClient ∧ (main w).exit ≠ Exit.returned) ∨
    (stepOk w Step.loadConfig = true ∧ stepOk w Step.parseLevel = true ∧
      stepOk w Step.getConfig = true ∧ stepOk w Step.newManager = true ∧
      stepOk w Step.decodeLabels = true ∧ stepOk w Step.newClient = true ∧
      stepOk w Step.setupWithManager = false ∧
      steps (main w).trace = upTo Step.setupWithManager ∧ (main w).exit ≠ Exit.returned) ∨
    (stepOk w Step.loadConfig = true ∧ stepOk w Step.parseLevel = true ∧
      stepOk w Step.getConfig = true ∧ stepOk w Step.newManager = true ∧
      stepOk w Step.decodeLabels = true ∧ stepOk w Step.newClient = true ∧
      stepOk w Step.setupWithManager = true ∧ stepOk w Step.healthz = false ∧
      steps (main w).trace = upTo Step.healthz ∧ (main w).exit ≠ Exit.returned) ∨
    (stepOk w Step.loadConfig = true ∧ stepOk w Step.parseLevel = true ∧
      stepOk w Step.getConfig = true ∧ stepOk w Step.newManager = true ∧
      stepOk w Step.decodeLabels = true ∧ stepOk w Step.newClient = true ∧
      stepOk w Step.setupWithManager = true ∧ stepOk w Step.healthz = true ∧
      stepOk w Step.readyz = false ∧
      steps (main w).trace = upTo Step.readyz ∧ (main w).exit ≠ Exit.returned) ∨
    (stepOk w Step.loadConfig = true ∧ stepOk w Step.parseLevel = true ∧
      stepOk w Step.getConfig = true ∧ stepOk w Step.newManager = true ∧
      stepOk w Step.decodeLabels = true ∧ stepOk w Step.newClient = true ∧
      stepOk w Step.setupWithManager = true ∧ stepOk w Step.healthz = true ∧
      stepOk w Step.readyz = true ∧ stepOk w Step.start = false ∧
      steps (main w).trace = upTo Step.start ∧ (main w).exit ≠ Exit.returned) ∨
    (stepOk w Step.loadConfig = true ∧ stepOk w Step.parseLevel = true ∧
      stepOk w Step.getConfig = true ∧ stepOk w Step.newManager = true ∧
      stepOk w Step.decodeLabels = true ∧ stepOk w Step.newClient = true ∧
      stepOk w Step.setupWithManager = true ∧ stepOk w Step.healthz = true ∧
      stepOk w Step.readyz = true ∧ stepOk w Step.start = true ∧
      steps (main w).trace = startupOrder ∧ (main w).exit = Exit.returned) := by
  have up1 : upTo Step.loadConfig = [Step.loadConfig] := by decide
  have up2 : upTo Step.parseLevel = [Step.loadConfig, Step.parseLevel] := by decide
  have up3 : upTo Step.getConfig = [Step.loadConfig, Step.parseLevel, Step.getConfig] := by
    decide
  have up4 : upTo Step.newManager =
      [Step.loadConfig, Step.parseLevel, Step.getConfig, Step.newManager] := by decide
  have up5 : upTo Step.decodeLabels =
      [Step.loadConfig, Step.parseLevel, Step.getConfig, Step.newManager,
       Step.decodeLabels] := by decide
  have up6 : upTo Step.newClient =
      [Step.loadConfig, Step.parseLevel, Step.getConfig, Step.newManager,
       Step.decodeLabels, Step.newClient] := by decide
  have up7 : upTo Step.setupWithManager =
      [Step.loadConfig, Step.parseLevel, Step.getConfig, Step.newManager,
       Step.decodeLabels, Step.newClient, Step.setupWithManager] := by decide
  have up8 : upTo Step.healthz =
      [Step.loadConfig, Step.parseLevel, Step.getConfig, Step.newManager,
       Step.decodeLabels, Step.newClient, Step.setupWithManager, Step.healthz] := by decide
  have up9 : upTo Step.readyz =
      [Step.loadConfig, Step.parseLevel, Step.getConfig, Step.newManager,
       Step.decodeLabels, Step.newClient, Step.setupWithManager, Step.healthz,
       Step.readyz] := by decide
  have up10 : upTo Step.start = startupOrder := by decide
  cases h1 : (LoadConfig w viper0 ".").err with
  | some e => left; simp [main, h1, stepOk, steps, stepOf, up1]
  | none =>
  right
  cases h2 : w.parseLevel (LoadConfig w viper0 ".").config.LogLevel with
  | error e => left; simp [main, h1, h2, stepOk, configOf, steps, stepOf, up2]
  | ok lvl =>
  right
  cases h3 : w.getConfigOrDie with
  | none => left; simp [main, h1, h2, h3, stepOk, configOf, steps, stepOf, up3]
  | some rc =>
  right
  cases h4 : w.newManager rc (managerOptions (LoadConfig w viper0 ".").config) with
  | error e =>
    left; simp [main, h1, h2, h3, h4, stepOk, configOf, managerOf, steps, stepOf, up4]
  | ok mgr =>
  right
  have hm : managerOf w = some mgr := by simp [managerOf, configOf, h3, h4]
  cases h5 : (w.jsonUnmarshal (LoadConfig w viper0 ".").config.LokiLabels []).2 with
  | some e =>
    left; simp [main, h1, h2, h3, h4, h5, hm, stepOk, configOf, steps, stepOf, up5]
  | none =>
  right
  cases h6 : w.newJSONv1Client (LoadConfig w viper0 ".").config.LokiGatewayUrl
      (w.jsonUnmarshal (LoadConfig w viper0 ".").config.LokiLabels []).1
      [ClientOption.withErrorCallback promtailErrorCallback] with
  | error e =>
    left
    simp [main, h1, h2, h3, h4, h5, h6, hm, stepOk, configOf, clientOf, decodedLabels,
      steps, stepOf, up6]
  | ok c =>
  right
  have hc : clientOf w = some c := by simp [clientOf, configOf, decodedLabels, h6]
  cases h7 : w.setupWithManager (eventReconciler mgr c
      (w.jsonUnmarshal (LoadConfig w viper0 ".").config.LokiLabels []).1) mgr with
  | some e =>
    left
    simp [main, h1, h2, h3, h4, h5, h6, h7, hm, hc, stepOk, configOf, decodedLabels,
      steps, stepOf, up7]
  | none =>
  right
  cases h8 : w.addHealthzCheck mgr "healthz" Ping with
  | some e =>
    left
    simp [main, h1, h2, h3, h4, h5, h6, h7, h8, hm, hc, stepOk, configOf, decodedLabels,
      steps, stepOf, up8]
  | none =>
  right
  cases h9 : w.addReadyzCheck mgr "readyz" Ping with
  | some e =>
    left
    simp [main, h1, h2, h3, h4, h5, h6, h7, h8, h9, hm, hc, stepOk, configOf,
      decodedLabels, steps, stepOf, up9]
  | none =>
  right
  cases h10 : w.start mgr with
  | some e =>
    left
    simp [main, h1, h2, h3, h4, h5, h6, h7, h8, h9, h10, hm, hc, stepOk, configOf,
      decodedLabels, steps, stepOf, up10, startupOrder]
  | none =>
    simp [main, h1, h2, h3, h4, h5, h6, h7, h8, h9, h10, hm, hc, stepOk, configOf,
      decodedLabels, steps, stepOf, startupOrder]

/-- C2: startup is fail-fast.  The startup steps `main` performs always form an
initial segment of the fixed order LoadConfig, log-level parsing,
GetConfigOrDie, manager construction, label decoding, promtail client
construction, SetupWithManager, healthz registration, readyz registration,
Start; a step is performed exactly when every step before it succeeded (so
`mgr.Start` is reached only if all of them did); a step that is performed and
fails is the last one performed, and the process then does not return
normally. -/
theorem main_fail_fast (w : World) :
    steps (main w).trace <+: startupOrder ∧
    (∀ s, s ∈ steps (main w).trace ↔ ∀ p, p ∈ before s → stepOk w p = true) ∧
    (∀ s, s ∈ steps (main w).trace → stepOk w s = false →
      (main w).exit ≠ Exit.returned ∧ steps (main w).trace = upTo s) ∧
    ((main w).exit = Exit.returned ↔ ∀ s, stepOk w s = true) := by
  have hb : ∀ s, before s = match s with
      | Step.loadConfig => []
      | Step.parseLevel => [Step.loadConfig]
      | Step.getConfig => [Step.loadConfig, Step.parseLevel]
      | Step.newManager => [Step.loadConfig, Step.parseLevel, Step.getConfig]
      | Step.decodeLabels =>
        [Step.loadConfig, Step.parseLevel, Step.getConfig, Step.newManager]
      | Step.newClient =>
        [Step.loadConfig, Step.parseLevel, Step.getConfig, Step.newManager,
         Step.decodeLabels]
      | Step.setupWithManager =>
        [Step.loadConfig, Step.parseLevel, Step.getConfig, Step.newManager,
         Step.decodeLabels, Step.newClient]
      | Step.healthz =>
        [Step.loadConfig, Step.parseLevel, Step.getConfig, Step.newManager,
         Step.decodeLabels, Step.newClient, Step.setupWithManager]
      | Step.readyz =>
        [Step.loadConfig, Step.parseLevel, Step.getConfig, Step.newManager,
         Step.decodeLabels, Step.newClient, Step.setupWithManager, Step.healthz]
      | Step.start =>
        [Step.loadConfig, Step.parseLevel, Step.getConfig, Step.newManager,
         Step.decodeLabels, Step.newClient, Step.setupWithManager, Step.healthz,
         Step.readyz] := by
    intro s; cases s <;> rfl
  have hu : ∀ s, upTo s = before s ++ [s] := by
    intro s; cases s <;> rfl
  have ho : startupOrder = before Step.start ++ [Step.start] := rfl
  rcases main_outcome w with h | h | h | h | h | h | h | h | h | h | h
  all_goals
    simp only [hu, hb, ho] at h
    refine ⟨?_, ?_, ?_, ?_⟩
    · simp only [h, ho, hb]
      decide
    · intro s
      cases s <;> simp [h, hb]
    · intro s
      cases s <;> simp [h, hb, hu]
    · simp only [h]
      first
      | (simp only [true_iff]
         intro s
         cases s <;> simp [h])
      | (simp only [false_iff]
         intro hx
         simp [hx] at h)

/-- C2 at a concrete input: when adding the readiness check fails, `main` ends
there without returning normally, and `mgr.Start` is not among the steps. -/
theorem main_fail_fast_witness :
    (main readyzFailsWorld).exit ≠ Exit.returned ∧
    steps (main readyzFailsWorld).trace = upTo Step.readyz :=
  (main_fail_fast readyzFailsWorld).2.2.1 Step.readyz (by decide) (by decide)

/-- C1, counterexample: the JSON text `null` and the object whose only value
is `null` are not string-to-string maps, yet `json.Unmarshal` accepts both (the
first leaves the nil map, the second maps the key to the empty string), and
`main` then constructs the promtail client, registers the reconciler, calls
`mgr.Start` and returns normally. -/
theorem null_labels_start_fully :
    ((configOf nullLabelsWorld).LokiLabels = "null" ∧
      jsonUnmarshal "null" [] = ([], none) ∧
      Step.newClient ∈ steps (main nullLabelsWorld).trace ∧
      Step.setupWithManager ∈ steps (main nullLabelsWorld).trace ∧
      Step.start ∈ steps (main nullLabelsWorld).trace ∧
      (main nullLabelsWorld).exit = Exit.returned) ∧
    ((configOf nullValueWorld).LokiLabels = "\x7b\"a\":null\x7d" ∧
      jsonUnmarshal "\x7b\"a\":null\x7d" [] = ([("a", "")], none) ∧
      Step.newClient ∈ steps (main nullValueWorld).trace ∧
      Step.setupWithManager ∈ steps (main nullValueWorld).trace ∧
      Step.start ∈ steps (main nullValueWorld).trace ∧
      (main nullValueWorld).exit = Exit.returned) := by
  refine ⟨⟨?_, ?_, ?_, ?_, ?_, ?_⟩, ⟨?_, ?_, ?_, ?_, ?_, ?_⟩⟩ <;> decide

/-- C1, amended: with `json.Unmarshal` as the Go library defines it for a
`map[string]string`, whenever it returns an error for the LOKI_LABELS string,
`main` never constructs the promtail client, never registers the reconciler,
the health or the readiness check, never calls `mgr.Start` and does not return
normally; and when the steps before the decoding succeeded, it performs the
decoding as its last step and ends in `panic(err)` with the decoding error.
Every string that is not valid JSON is rejected, among them the empty string
and a lone opening brace, and so is the object that maps "a" to the number 1. -/
theorem malformed_labels_fatal (w : World) (hw : w.jsonUnmarshal = jsonUnmarshal)
    (h : (jsonUnmarshal (configOf w).LokiLabels []).2 ≠ none) :
    (Step.newClient ∉ steps (main w).trace ∧
      Step.setupWithManager ∉ steps (main w).trace ∧
      Step.healthz ∉ steps (main w).trace ∧
      Step.readyz ∉ steps (main w).trace ∧
      Step.start ∉ steps (main w).trace ∧
      (main w).exit ≠ Exit.returned ∧
      ((∀ p, p ∈ before Step.decodeLabels → stepOk w p = true) →
        steps (main w).trace = upTo Step.decodeLabels ∧
        ∃ err, (jsonUnmarshal (configOf w).LokiLabels []).2 = some err ∧
          (main w).exit = Exit.panic err)) ∧
    (∀ data into, checkValid data ≠ none → (jsonUnmarshal data into).2 ≠ none) ∧
    (jsonUnmarshal "" []).2 ≠ none ∧
    (jsonUnmarshal "\x7b" []).2 ≠ none ∧
    (jsonUnmarshal "\x7b\"a\":1\x7d" []).2 ≠ none := by
  refine ⟨?_, ?_, by decide, by decide, by decide⟩
  swap
  · intro data into hv
    unfold jsonUnmarshal
    cases hc : checkValid data with
    | none => exact absurd hc hv
    | some e => simp
  rw [← hw] at h
  have hk : stepOk w Step.decodeLabels = false := by
    cases hd : (w.jsonUnmarshal (configOf w).LokiLabels []).2 with
    | none => exact absurd hd h
    | some e => simp [stepOk, hd]
  have hb : before Step.decodeLabels =
      [Step.loadConfig, Step.parseLevel, Step.getConfig, Step.newManager] := rfl
  have hsteps : (Step.newClient ∉ steps (main w).trace ∧
      Step.setupWithManager ∉ steps (main w).trace ∧
      Step.healthz ∉ steps (main w).trace ∧
      Step.readyz ∉ steps (main w).trace ∧
      Step.start ∉ steps (main w).trace ∧
      (main w).exit ≠ Exit.returned) ∧
      ((∀ p, p ∈ before Step.decodeLabels → stepOk w p = true) →
        steps (main w).trace = upTo Step.decodeLabels) := by
    rcases main_outcome w with h | h | h | h | h | h | h | h | h | h | h
    all_goals first
      | (exfalso; simp [hk] at h; done)
      | (refine ⟨?_, ?_⟩
         · simp only [h, ne_eq, not_false_eq_true, and_true]
           decide
         · intro hp
           simp only [hb, List.mem_cons, List.mem_singleton, forall_eq_or_imp, forall_eq] at hp
           first
           | exact h.2.2.2.2.2.1
           | (exfalso; simp [hp] at h))
  refine ⟨hsteps.1.1, hsteps.1.2.1, hsteps.1.2.2.1, hsteps.1.2.2.2.1, hsteps.1.2.2.2.2.1,
    hsteps.1.2.2.2.2.2, fun hp => ⟨hsteps.2 hp, ?_⟩⟩
  simp only [hb, List.mem_cons, List.mem_singleton, forall_eq_or_imp, forall_eq] at hp
  obtain ⟨p1, p2, p3, p4⟩ := hp
  rw [← hw]
  cases hd : (w.jsonUnmarshal (configOf w).LokiLabels []).2 with
  | none => exact absurd hd h
  | some e =>
    refine ⟨e, rfl, ?_⟩
    simp only [stepOk, configOf, managerOf] at p1 p2 p3 p4
    simp only [configOf] at hd
    unfold main
    dsimp only
    repeat' split
    all_goals simp_all

/-- C1 at a concrete input: with LOKI_LABELS set to a lone opening brace, which
the decoder rejects, `main` panics with the decoding error right after the
decoding step. -/
theorem malformed_labels_fatal_witness :
    (jsonUnmarshal (configOf brokenLabelsWorld).LokiLabels []).2 ≠ none ∧
    steps (main brokenLabelsWorld).trace = upTo Step.decodeLabels ∧
    ∃ err, (jsonUnmarshal (configOf brokenLabelsWorld).LokiLabels []).2 = some err ∧
      (main brokenLabelsWorld).exit = Exit.panic err :=
  ⟨by decide,
   (malformed_labels_fatal brokenLabelsWorld rfl (by decide)).1.2.2.2.2.2.2 (by decide)⟩

/-- C6, counterexample: in a world whose configuration has LEADER_ELECT off,
`main` creates the manager with `LeaderElection = false`, registers the
reconciler with it and starts it. -/
theorem leader_election_disabled_example :
    Call.newManager { host := "https://10.0.0.1" } (managerOptions sampleConfig)
      ∈ (main sampleWorld).trace ∧
    (managerOptions sampleConfig).LeaderElection = false ∧
    Step.setupWithManager ∈ steps (main sampleWorld).trace ∧
    Step.start ∈ steps (main sampleWorld).trace := by
  refine ⟨?_, rfl, by decide, by decide⟩
  simp [main, sampleWorld, LoadConfig, viper0, sampleConfig, managerOptions,
    sample_labels_decode]

/-- C6, amended: whenever `main` creates the manager, its `LeaderElection`
option is the LEADER_ELECT flag of the loaded configuration (so leader election
is enabled exactly when the flag is true), its election id is the fixed
"ea28a4b8.eventviewer", and the options are those of the literal in `main`. -/
theorem manager_leader_election (w : World) (rc : RestConfig) (opts : Options)
    (h : Call.newManager rc opts ∈ (main w).trace) :
    opts.LeaderElection = (configOf w).EnableLeaderElection ∧
    opts.LeaderElectionID = "ea28a4b8.eventviewer" ∧
    opts = managerOptions (configOf w) ∧
    w.getConfigOrDie = some rc := by
  unfold main at h
  dsimp only at h
  repeat' split at h
  all_goals simp at h
  all_goals
    obtain ⟨h1, h2⟩ := h
    subst h1 h2
    simp_all [managerOptions, configOf]

/-- C6 at a concrete input: with LEADER_ELECT off the manager is created with
leader election off, under the fixed election id. -/
theorem manager_leader_election_witness :
    (managerOptions sampleConfig).LeaderElection = (configOf sampleWorld).EnableLeaderElection ∧
    (managerOptions sampleConfig).LeaderElectionID = "ea28a4b8.eventviewer" ∧
    managerOptions sampleConfig = managerOptions (configOf sampleWorld) ∧
    sampleWorld.getConfigOrDie = some { host := "https://10.0.0.1" } :=
  manager_leader_election sampleWorld { host := "https://10.0.0.1" }
    (managerOptions sampleConfig)
    (by simp [main, sampleWorld, LoadConfig, viper0, sampleConfig, managerOptions,
    sample_labels_decode])

/-- C7: the label map decoded from LOKI_LABELS is the one `main` gives to the
promtail client as default labels and to the `EventReconciler` as
`CommonLabels`; `main` decodes at most once, into the empty map, and when the
decoding and the steps before it succeeded the client is constructed with
exactly that map. -/
theorem labels_supplied_once (w : World) :
    (∀ url labels options, Call.newJSONv1Client url labels options ∈ (main w).trace →
      labels = decodedLabels w ∧ (w.jsonUnmarshal (configOf w).LokiLabels []).2 = none) ∧
    (∀ r mgr, Call.setupWithManager r mgr ∈ (main w).trace →
      r.CommonLabels = decodedLabels w ∧
      (w.jsonUnmarshal (configOf w).LokiLabels []).2 = none) ∧
    (∀ data into, Call.jsonUnmarshal data into ∈ (main w).trace →
      data = (configOf w).LokiLabels ∧ into = []) ∧
    (steps (main w).trace).count Step.decodeLabels ≤ 1 ∧
    ((∀ p, p ∈ upTo Step.decodeLabels → stepOk w p = true) →
      Call.newJSONv1Client (configOf w).LokiGatewayUrl (decodedLabels w)
        [ClientOption.withErrorCallback promtailErrorCallback] ∈ (main w).trace) ∧
    ((∀ p, p ∈ upTo Step.newClient → stepOk w p = true) →
      ∃ mgr c, managerOf w = some mgr ∧ clientOf w = some c ∧
        Call.setupWithManager (eventReconciler mgr c (decodedLabels w)) mgr
          ∈ (main w).trace) := by
  refine ⟨?_, ?_, ?_, ?_, ?_, ?_⟩
  · intro url labels options h
    unfold main at h
    dsimp only at h
    repeat' split at h
    all_goals simp at h
    all_goals simp_all [decodedLabels, configOf]
  · intro r mgr h
    unfold main at h
    dsimp only at h
    repeat' split at h
    all_goals simp at h
    all_goals simp_all [decodedLabels, configOf, eventReconciler]
  · intro data into h
    unfold main at h
    dsimp only at h
    repeat' split at h
    all_goals simp at h
    all_goals simp_all [configOf]
  · rcases main_outcome w with h | h | h | h | h | h | h | h | h | h | h
    all_goals
      simp only [h]
      decide
  · intro hp
    have hu : upTo Step.decodeLabels = [Step.loadConfig, Step.parseLevel, Step.getConfig,
        Step.newManager, Step.decodeLabels] := rfl
    simp only [hu, List.mem_cons, List.mem_singleton, forall_eq_or_imp, forall_eq] at hp
    obtain ⟨p1, p2, p3, p4, p5⟩ := hp
    simp only [stepOk, configOf, managerOf] at p1 p2 p3 p4 p5
    unfold main
    dsimp only
    repeat' split
    all_goals simp_all [decodedLabels, configOf]
  · intro hp
    have hu : upTo Step.newClient = [Step.loadConfig, Step.parseLevel, Step.getConfig,
        Step.newManager, Step.decodeLabels, Step.newClient] := rfl
    simp only [hu, List.mem_cons, List.mem_singleton, forall_eq_or_imp, forall_eq] at hp
    obtain ⟨p1, p2, p3, p4, p5, p6⟩ := hp
    simp only [stepOk, configOf, managerOf, clientOf, decodedLabels] at p1 p2 p3 p4 p5 p6
    unfold main
    dsimp only
    repeat' split
    all_goals simp_all [decodedLabels, configOf, managerOf, clientOf]

/-- C7 at a concrete input: in the sample world the promtail client receives
the decoded map with the single label cluster=dev. -/
theorem labels_supplied_once_witness :
    Call.newJSONv1Client (configOf sampleWorld).LokiGatewayUrl (decodedLabels sampleWorld)
        [ClientOption.withErrorCallback promtailErrorCallback] ∈ (main sampleWorld).trace ∧
    decodedLabels sampleWorld = [("cluster", "dev")] :=
  ⟨(labels_supplied_once sampleWorld).2.2.2.2.1 (by decide), by decide⟩

/-- C8: whenever `main` constructs the promtail client, the only option it
passes is the error callback that logs the error it is handed to the logger
"promtail" under "promtail client internal error"; and for the forwarding
client built from these arguments, every delivery attempt that is not Delivered,
transient or permanent, hands its failure to that callback, which writes
exactly one such log line. -/
theorem delivery_failure_reaches_callback (w : World) (url : String) (labels : Labels)
    (options : List ClientOption)
    (h : Call.newJSONv1Client url labels options ∈ (main w).trace) :
    options = [ClientOption.withErrorCallback promtailErrorCallback] ∧
    (∀ err, (newForwardingClient url labels options).onError err =
      [{ logger := "promtail", isError := true, err := some err,
         msg := "promtail client internal error", keysAndValues := [] }]) ∧
    (∀ sink record,
      (Deliver (newForwardingClient url labels options) sink record).1
        ≠ DeliveryOutcome.Delivered →
      ∃ reason,
        ((Deliver (newForwardingClient url labels options) sink record).1
            = DeliveryOutcome.TransientFailure reason ∨
          (Deliver (newForwardingClient url labels options) sink record).1
            = DeliveryOutcome.PermanentFailure reason) ∧
        (Deliver (newForwardingClient url labels options) sink record).2 =
          [{ logger := "promtail", isError := true, err := some reason,
             msg := "promtail client internal error", keysAndValues := [] }]) ∧
    (∀ sink record,
      (Deliver (newForwardingClient url labels options) sink record).1
        = DeliveryOutcome.Delivered →
      (Deliver (newForwardingClient url labels options) sink record).2 = []) := by
  have ho : options = [ClientOption.withErrorCallback promtailErrorCallback] := by
    unfold main at h
    dsimp only at h
    repeat' split at h
    all_goals simp at h
    all_goals exact h.2.2
  subst ho
  refine ⟨rfl, fun err => rfl, ?_, ?_⟩
  · intro sink record hne
    unfold Deliver at hne ⊢
    cases hc : classify (sink record) with
    | Delivered => simp [hc] at hne
    | TransientFailure reason =>
      exact ⟨reason, Or.inl rfl, rfl⟩
    | PermanentFailure reason =>
      exact ⟨reason, Or.inr rfl, rfl⟩
  · intro sink record heq
    unfold Deliver at heq ⊢
    cases hc : classify (sink record) with
    | Delivered => rfl
    | TransientFailure reason => simp [hc] at heq
    | PermanentFailure reason => simp [hc] at heq

/-- C8 at a concrete input: the client of the sample world, pushing the sample
event to a sink that times out, writes the callback line for that failure. -/
theorem delivery_failure_reaches_callback_witness :
    ∃ reason,
      ((Deliver (newForwardingClient "http://loki:3100/loki/api/v1/push" [("cluster", "dev")]
          [ClientOption.withErrorCallback promtailErrorCallback]) sinkTimeout
          (encode [("cluster", "dev")] sampleEvent)).1
            = DeliveryOutcome.TransientFailure reason ∨
        (Deliver (newForwardingClient "http://loki:3100/loki/api/v1/push" [("cluster", "dev")]
          [ClientOption.withErrorCallback promtailErrorCallback]) sinkTimeout
          (encode [("cluster", "dev")] sampleEvent)).1
            = DeliveryOutcome.PermanentFailure reason) ∧
      (Deliver (newForwardingClient "http://loki:3100/loki/api/v1/push" [("cluster", "dev")]
          [ClientOption.withErrorCallback promtailErrorCallback]) sinkTimeout
          (encode [("cluster", "dev")] sampleEvent)).2 =
        [{ logger := "promtail", isError := true, err := some reason,
           msg := "promtail client internal error", keysAndValues := [] }] :=
  (delivery_failure_reaches_callback sampleWorld "http://loki:3100/loki/api/v1/push"
    [("cluster", "dev")] [ClientOption.withErrorCallback promtailErrorCallback]
    (by simp [main, sampleWorld, LoadConfig, viper0, sampleConfig,
      sample_labels_decode])).2.2.1
    sinkTimeout (encode [("cluster", "dev")] sampleEvent) (by decide)

/-- C9: every check `main` registers as a health check is registered under
"healthz", every check it registers as a readiness check under "readyz", each
is the constant ping check, which reports healthy for every request and every
state of the process; and when the steps before succeed both are registered. -/
theorem health_checks_are_pings (w : World) :
    (∀ mgr name check, Call.addHealthzCheck mgr name check ∈ (main w).trace →
      name = "healthz" ∧ check = Ping ∧ ∀ st req, check st req = none) ∧
    (∀ mgr name check, Call.addReadyzCheck mgr name check ∈ (main w).trace →
      name = "readyz" ∧ check = Ping ∧ ∀ st req, check st req = none) ∧
    ((∀ p, p ∈ before Step.healthz → stepOk w p = true) →
      ∃ mgr, Call.addHealthzCheck mgr "healthz" Ping ∈ (main w).trace) ∧
    ((∀ p, p ∈ before Step.readyz → stepOk w p = true) →
      ∃ mgr, Call.addReadyzCheck mgr "readyz" Ping ∈ (main w).trace) := by
  refine ⟨?_, ?_, ?_, ?_⟩
  · intro mgr name check h
    unfold main at h
    dsimp only at h
    repeat' split at h
    all_goals simp at h
    all_goals
      obtain ⟨-, h2, h3⟩ := h
      subst h2 h3
      exact ⟨rfl, rfl, fun _ _ => rfl⟩
  · intro mgr name check h
    unfold main at h
    dsimp only at h
    repeat' split at h
    all_goals simp at h
    all_goals
      obtain ⟨-, h2, h3⟩ := h
      subst h2 h3
      exact ⟨rfl, rfl, fun _ _ => rfl⟩
  · intro hp
    have hb : before Step.healthz = [Step.loadConfig, Step.parseLevel, Step.getConfig,
        Step.newManager, Step.decodeLabels, Step.newClient, Step.setupWithManager] := rfl
    simp only [hb, List.mem_cons, List.mem_singleton, forall_eq_or_imp, forall_eq] at hp
    obtain ⟨p1, p2, p3, p4, p5, p6, p7⟩ := hp
    simp only [stepOk, configOf, managerOf, clientOf, decodedLabels] at p1 p2 p3 p4 p5 p6 p7
    unfold main
    dsimp only
    repeat' split
    all_goals simp_all [decodedLabels, configOf, managerOf, clientOf]
  · intro hp
    have hb : before Step.readyz = [Step.loadConfig, Step.parseLevel, Step.getConfig,
        Step.newManager, Step.decodeLabels, Step.newClient, Step.setupWithManager,
        Step.healthz] := rfl
    simp only [hb, List.mem_cons, List.mem_singleton, forall_eq_or_imp, forall_eq] at hp
    obtain ⟨p1, p2, p3, p4, p5, p6, p7, p8⟩ := hp
    simp only [stepOk, configOf, managerOf, clientOf, decodedLabels]
      at p1 p2 p3 p4 p5 p6 p7 p8
    unfold main
    dsimp only
    repeat' split
    all_goals simp_all [decodedLabels, configOf, managerOf, clientOf]

/-- C9 at a concrete input: in the sample world both checks are registered. -/
theorem health_checks_are_pings_witness :
    (∃ mgr, Call.addHealthzCheck mgr "healthz" Ping ∈ (main sampleWorld).trace) ∧
    (∃ mgr, Call.addReadyzCheck mgr "readyz" Ping ∈ (main sampleWorld).trace) :=
  ⟨(health_checks_are_pings sampleWorld).2.2.1 (by decide),
   (health_checks_are_pings sampleWorld).2.2.2 (by decide)⟩

/-- Looking a key up after one more label was appended. -/
theorem lookup_append_singleton (k : String) (acc : Labels) (kv : String × String) :
    (acc ++ [kv]).lookup k =
      match acc.lookup k with
      | some v => some v
      | none => if k = kv.1 then some kv.2 else none := by
  induction acc with
  | nil =>
    by_cases hk : k = kv.1
    · simp [List.lookup, hk]
    · have : (k == kv.1) = false := by simpa using hk
      simp [List.lookup, hk, this]
  | cons a rest ih =>
    by_cases ha : k = a.1
    · simp [List.lookup, ha]
    · have : (k == a.1) = false := by simpa using ha
      simp only [List.cons_append, List.lookup, this]
      exact ih

/-- Looking a key up in a merged label set: the static value when there is one,
otherwise the derived value. -/
theorem lookup_mergeLabels (k : String) (derived common : Labels) :
    (mergeLabels common derived).lookup k =
      match common.lookup k with
      | some v => some v
      | none => derived.lookup k := by
  unfold mergeLabels
  induction derived generalizing common with
  | nil => cases hc : common.lookup k <;> simp [hc]
  | cons kv rest ih =>
    rw [List.foldl_cons, ih]
    unfold applyDerived
    by_cases hk : k = kv.1
    · subst hk
      cases hc : common.lookup kv.1 with
      | some v => simp [hc]
      | none => simp [hc, lookup_append_singleton, List.lookup]
    · have hb : (k == kv.1) = false := by simpa using hk
      cases hkv : common.lookup kv.1 with
      | some v => simp [List.lookup, hb]
      | none =>
        simp only [lookup_append_singleton, hk, if_false, List.lookup, hb]
        cases common.lookup k <;> rfl

/-- C3: label precedence.  For every event and every CommonLabels map, a key
that CommonLabels maps to a value is mapped to that same value by the label set
of the resulting LogRecord, whatever the derived labels (namespace, kind,
reason) say for that key; a key absent from CommonLabels gets its derived
value. -/
theorem label_precedence (common : Labels) (e : ClusterEvent) (k : String) :
    (∀ v, common.lookup k = some v → (encode common e).labels.lookup k = some v) ∧
    (common.lookup k = none →
      (encode common e).labels.lookup k = (derivedLabels e).lookup k) := by
  unfold encode
  simp only [lookup_mergeLabels]
  constructor
  · intro v hv
    simp [hv]
  · intro hn
    simp [hn]

/-- C3 at a concrete input: an operator-owned label "namespace" is not
overridden by the namespace of the event. -/
theorem label_precedence_witness :
    (encode [("namespace", "infra")] sampleEvent).labels.lookup "namespace" = some "infra" :=
  (label_precedence [("namespace", "infra")] sampleEvent "namespace").1 "infra" (by decide)

/-- C5: backoff monotonicity and bound.  With the pre-jitter delay
min(base × 2^attempt, maxDelay), the delay of the next attempt is at least the
delay of the current one, and every delay is at most maxDelay; and the delay
with which `Reconcile` requeues a key is this delay at the number of failed
attempts recorded for the key, which the requeue raises by one. -/
theorem backoff_monotone_bounded (base maxDelay attempt : Nat) :
    backoffDelay base maxDelay attempt ≤ backoffDelay base maxDelay (attempt + 1) ∧
    backoffDelay base maxDelay attempt ≤ maxDelay ∧
    (∀ (p : Pipeline) cluster sink now s key d,
      p.base = base → p.maxDelay = maxDelay →
      (Reconcile p cluster sink now s key).1 = ReconcileResult.Requeue d →
      d = backoffDelay base maxDelay (attemptsOf s key) ∧
      attemptsOf (Reconcile p cluster sink now s key).2 key = attemptsOf s key + 1) := by
  refine ⟨?_, ?_, ?_⟩
  · unfold backoffDelay
    refine le_min (le_trans (min_le_left _ _) ?_) (min_le_right _ _)
    exact Nat.mul_le_mul_left base (Nat.pow_le_pow_right (by decide) (Nat.le_succ attempt))
  · exact min_le_right _ _
  · intro p cluster sink now s key d hb hm hr
    subst hb hm
    unfold Reconcile at hr ⊢
    cases hc : cluster key with
    | none => simp [hc] at hr
    | some e =>
      simp only [hc] at hr ⊢
      by_cases hseen : (HasForwarded s.guard (dedupKey p.hash e) now).1 = true
      · simp [hseen] at hr
      · cases hout : (Deliver p.client sink (encode p.common e)).1 with
        | Delivered => simp [hseen, hout] at hr
        | PermanentFailure reason => simp [hseen, hout] at hr
        | TransientFailure reason =>
          by_cases hlt : attemptsOf s key < p.maxAttempts
          · have hs : (HasForwarded s.guard (dedupKey p.hash e) now).1 = false := by
              simpa using hseen
            simp [hs, hout, hlt] at hr
            simp only [hs, hout, hlt, if_true, Bool.false_eq_true, if_false]
            refine ⟨hr.symm, ?_⟩
            simp [attemptsOf, setAttempts, List.lookup]
          · simp [hseen, hout, hlt] at hr

/-- C5 at a concrete input: base 2 and maximum 60 give the delays 32 and then
60 for the attempts 4 and 5, and a first timeout requeues the sample event
after `backoffDelay 2 60 0`. -/
theorem backoff_monotone_bounded_witness :
    (backoffDelay 2 60 4 ≤ backoffDelay 2 60 5 ∧ backoffDelay 2 60 4 ≤ 60) ∧
    (2 = backoffDelay 2 60 (attemptsOf (freshState 8 100) sampleKey) ∧
      attemptsOf (Reconcile samplePipeline sampleCluster sinkTimeout 0 (freshState 8 100)
        sampleKey).2 sampleKey = attemptsOf (freshState 8 100) sampleKey + 1) :=
  ⟨⟨(backoff_monotone_bounded 2 60 4).1, (backoff_monotone_bounded 2 60 4).2.1⟩,
   (backoff_monotone_bounded 2 60 0).2.2 samplePipeline sampleCluster sinkTimeout 0
     (freshState 8 100) sampleKey 2 rfl rfl (by decide)⟩

end EventViewer
